import Mathlib

/-!
Verification of the ollama-mcp server core (`server.py`) against its design
specification.  The Python source is shallowly embedded: JSON values decoded
by `json.loads` become the inductive `Json`; the NDJSON stream accumulator
`_request_stream` (server.py lines 56-91) becomes a fold over decoded lines;
the unary executor `_request` (lines 42-53) and each tool operation's
try/except boundary become total Lean functions returning `Except`/`String`.
Numbers are modelled as integers (no claim below involves float-valued JSON
numbers).
-/

namespace OllamaMCP

/-- A JSON value as produced by Python's `json.loads`.  Python's `None` is
identified with JSON `null` (exactly as in CPython, where `json.loads`
decodes `null` to `None` and `dict.get` of a missing key also yields
`None`). -/
inductive Json where
  | null
  | bool (b : Bool)
  | num (n : Int)
  | str (s : String)
  | arr (elems : List Json)
  | obj (fields : List (String × Json))
deriving Repr

/-- Python truthiness of a decoded JSON value (`bool(v)`). -/
def Json.truthy : Json → Bool
  | .null => false
  | .bool b => b
  | .num n => n != 0
  | .str s => s != ""
  | .arr elems => !elems.isEmpty
  | .obj fields => !fields.isEmpty

/-- Dictionary lookup, last binding wins — as in a Python dict built by
`json.loads`, where a repeated key keeps the last value. -/
def lookup? (kvs : List (String × Json)) (k : String) : Option Json :=
  kvs.foldl (fun acc kv => if kv.1 == k then some kv.2 else acc) none

/-- Python `d.get(k)`: the stored value, or `None` for a missing key. -/
def pyGet (kvs : List (String × Json)) (k : String) : Json :=
  (lookup? kvs k).getD .null

/-- Python `isinstance(v, dict)` for a decoded JSON value. -/
def Json.isDict : Json → Bool
  | .obj _ => true
  | _ => false

/-- Python `v.get(k)` where `v` is known to be a dict (`.null` otherwise;
only applied under an `isDict` guard below). -/
def Json.dictGet : Json → String → Json
  | .obj kvs, k => pyGet kvs k
  | _, _ => .null

/-- Python `k in v` for a dict value (`False` on non-dicts; only applied
under an `isDict` guard below). -/
def Json.hasKey : Json → String → Bool
  | .obj kvs, k => (lookup? kvs k).isSome
  | _, _ => false

/-- Python `v or ""` as applied to a content field value (server.py lines
85 and 87). -/
def Json.orEmptyStr (v : Json) : Json :=
  if v.truthy then v else .str ""

/-- Running state of the stream fold: the two buffers `content_parts` and
`thinking_parts` of `_request_stream` (server.py lines 64-65), in arrival
order. -/
structure AccState where
  contentParts : List Json
  thinkingParts : List Json
deriving Repr

/-- The decode outcome of one line of the streamed NDJSON body: blank after
`line.strip()` (line 70-72), a JSON-decode failure (lines 73-76), or a
decoded JSON value (`chunk = json.loads(line)`, line 74). -/
inductive Line where
  | blank
  | malformed (raw : String)
  | frag (chunk : Json)
deriving Repr

/-- Python `chunk.get("message") or {}` (server.py line 78). -/
def msgOf (kvs : List (String × Json)) : Json :=
  let m := pyGet kvs "message"
  if m.truthy then m else .obj []

/-- Process one decoded chunk (server.py lines 77-87).  A chunk that is not
a dict raises `AttributeError` at `chunk.get` (uncaught inside the
accumulator, hence an `Except.error`). -/
def processChunk (ck : String) (st : AccState) (chunk : Json) : Except String AccState :=
  match chunk with
  | .obj kvs =>
    let msg := msgOf kvs
    let st1 :=
      if msg.isDict && (msg.dictGet "thinking").truthy then
        { st with thinkingParts := st.thinkingParts ++ [msg.dictGet "thinking"] }
      else if (pyGet kvs "thinking").truthy then
        { st with thinkingParts := st.thinkingParts ++ [pyGet kvs "thinking"] }
      else st
    if msg.isDict && msg.hasKey ck then
      .ok { st1 with contentParts := st1.contentParts ++ [(msg.dictGet ck).orEmptyStr] }
    else if Json.hasKey (.obj kvs) ck then
      .ok { st1 with contentParts := st1.contentParts ++ [(pyGet kvs ck).orEmptyStr] }
    else
      .ok st1
  | _ => .error "AttributeError: object has no attribute get"

/-- Process one line of the stream body (server.py lines 69-87): blank lines
and JSON-decode failures are skipped, decoded chunks are folded in. -/
def processLine (ck : String) (st : AccState) (l : Line) : Except String AccState :=
  match l with
  | .blank => .ok st
  | .malformed _ => .ok st
  | .frag chunk => processChunk ck st chunk

/-- The stream fold: all lines of the body, in arrival order, folded from the
empty buffers (server.py lines 64-87). -/
def accumulate (ck : String) (lines : List Line) : Except String AccState :=
  lines.foldlM (processLine ck) ⟨[], []⟩

/-- Python `v` when `v` is a `str`, otherwise `none` (a non-str element makes
`str.join` raise `TypeError`). -/
def Json.asString? : Json → Option String
  | .str s => some s
  | _ => none

/-- Whether a value is a JSON string. -/
def Json.isStr : Json → Bool
  | .str _ => true
  | _ => false

/-- Python str() of a string value, the empty string on anything else (only
meaningful where a string is guaranteed). -/
def Json.textOf : Json → String
  | .str s => s
  | _ => ""

/-- Whether Python str.strip() removes a character: ASCII whitespace. -/
def isPySpace (c : Char) : Bool :=
  c == ' ' || c == '\t' || c == '\n' || c == '\r' || c == '\x0b' || c == '\x0c'

/-- Python str.strip(): remove leading and trailing whitespace. -/
def pyStrip (s : String) : String :=
  String.mk (((s.data.dropWhile isPySpace).reverse.dropWhile isPySpace).reverse)

/-- Python `sep.join` on a list of strings. -/
def joinSep (sep : String) : List String → String
  | [] => ""
  | [x] => x
  | x :: xs => x ++ sep ++ joinSep sep xs

/-- Python `sep.join(parts)`: raises `TypeError` (modelled as `none`) when
any element is not a `str`, and otherwise concatenates the strings with the
separator between consecutive elements. -/
def pyJoin (sep : String) (parts : List Json) : Option String :=
  if parts.all Json.isStr then some (joinSep sep (parts.filterMap Json.asString?))
  else none

/-- Final rendering of the fold state (server.py lines 88-91): join the
content buffer; when the thinking buffer is non-empty, prepend the labelled
reasoning block. -/
def renderResult (st : AccState) : Option String := do
  let content ← pyJoin "" st.contentParts
  if st.thinkingParts.isEmpty then
    some content
  else do
    let t ← pyJoin " " st.thinkingParts
    some ("[Thinking] " ++ pyStrip t ++ "\n\n" ++ content)

/-- How the streamed HTTP body terminates: normal end of stream, or a
mid-read transport failure (connection drop) raised by `aiter_lines` after
the listed lines were delivered. -/
inductive StreamEnd where
  | eof
  | dropped (detail : String)
deriving Repr

/-- A streamed HTTP response: status code, the delivered body lines in
arrival order, and how the body iteration ends. -/
structure StreamResponse where
  status : Nat
  lines : List Line
  termination : StreamEnd
deriving Repr

/-- httpx `Response.is_success`: `raise_for_status` raises for every status
outside 200-299. -/
def isSuccessStatus (status : Nat) : Bool :=
  200 ≤ status && status < 300

/-- The body of a unary HTTP response: empty (`resp.content` falsy), a valid
JSON document, or non-empty junk on which `resp.json()` raises. -/
inductive UnaryBody where
  | empty
  | jsonBody (value : Json)
  | invalid (raw : String)
deriving Repr

/-- A unary HTTP response: status code and body. -/
structure UnaryResponse where
  status : Nat
  body : UnaryBody
deriving Repr

/-- The failure taxonomy at a tool boundary.  `httpStatus` models
`httpx.HTTPStatusError` (the spec's `BackendHTTPError`) carrying the response
status and, for unary calls, the response body (a streaming call raises
before its body is read, hence `none`); `transport` models
`httpx.TransportError` (the spec's `BackendUnreachableError`); both are
subclasses of `httpx.HTTPError`.  `other` models every non-httpx exception
(e.g. `json.JSONDecodeError`, `AttributeError`, `TypeError`). -/
inductive BackendError where
  | httpStatus (status : Nat) (body : Option UnaryBody)
  | transport (detail : String)
  | other (detail : String)
deriving Repr

/-- Whether the exception is an `httpx.HTTPError` (matched by the first
`except` clause of every tool operation). -/
def BackendError.isHTTPError : BackendError → Bool
  | .httpStatus _ _ => true
  | .transport _ => true
  | .other _ => false

/-- The interpolated text `str(e)` of the exception, as used by the
`f"..."` error strings.  The exact wording httpx gives an
`HTTPStatusError` is summarised by its status; no property below depends
on that wording. -/
def BackendError.detail : BackendError → String
  | .httpStatus status _ => "HTTP " ++ toString status
  | .transport d => d
  | .other d => d

/-- The unary request executor `_request` (server.py lines 42-53), applied to
the response the transport delivered: raise on a non-success status; decode a
non-empty body as JSON; return `{}` for an empty body. -/
def request (resp : UnaryResponse) : Except BackendError Json :=
  if !isSuccessStatus resp.status then
    .error (.httpStatus resp.status (some resp.body))
  else
    match resp.body with
    | .empty => .ok (.obj [])
    | .jsonBody v => .ok v
    | .invalid raw => .error (.other ("JSONDecodeError: " ++ raw))

/-- The unary executor including the transport layer: a connection-level
failure (refused, DNS, timeout) surfaces as `httpx.TransportError` before any
response exists. -/
def requestT (tr : Except String UnaryResponse) : Except BackendError Json :=
  match tr with
  | .error d => .error (.transport d)
  | .ok resp => request resp

/-- The streaming executor `_request_stream` (server.py lines 56-91), applied
to the streamed response: raise on a non-success status before reading the
body; fold the delivered lines; a mid-read connection drop raises a transport
error after the delivered lines were folded (and discards the fold); on
normal EOF, render the buffers. -/
def request_stream (ck : String) (resp : StreamResponse) : Except BackendError String :=
  if !isSuccessStatus resp.status then
    .error (.httpStatus resp.status none)
  else
    match accumulate ck resp.lines with
    | .error d => .error (.other d)
    | .ok st =>
      match resp.termination with
      | .dropped d => .error (.transport d)
      | .eof =>
        match renderResult st with
        | some s => .ok s
        | none => .error (.other "TypeError: sequence item: expected str instance")

/-- The streaming executor including the transport layer (connection failure
at open). -/
def request_streamT (ck : String) (tr : Except String StreamResponse) :
    Except BackendError String :=
  match tr with
  | .error d => .error (.transport d)
  | .ok resp => request_stream ck resp

/-- A single-quote character, used by Python repr of strings. -/
def sq : String := String.singleton (Char.ofNat 39)

mutual

/-- Python repr() of a decoded JSON value, as used for the elements of a
container interpolated into an f-string.  String escaping inside repr is not
reproduced (no property below depends on container rendering). -/
def Json.pyRepr : Json → String
  | .null => "None"
  | .bool true => "True"
  | .bool false => "False"
  | .num n => toString n
  | .str s => sq ++ s ++ sq
  | .arr elems => "[" ++ Json.pyReprElems elems ++ "]"
  | .obj fields => "\x7b" ++ Json.pyReprFields fields ++ "\x7d"

/-- Comma-separated repr of list elements. -/
def Json.pyReprElems : List Json → String
  | [] => ""
  | [x] => x.pyRepr
  | x :: xs => x.pyRepr ++ ", " ++ Json.pyReprElems xs

/-- Comma-separated repr of dict items. -/
def Json.pyReprFields : List (String × Json) → String
  | [] => ""
  | [kv] => sq ++ kv.1 ++ sq ++ ": " ++ kv.2.pyRepr
  | kv :: kvs => sq ++ kv.1 ++ sq ++ ": " ++ kv.2.pyRepr ++ ", " ++ Json.pyReprFields kvs

end

/-- Python str() of a decoded JSON value, as applied by f-string
interpolation (and by the dispatch layer to a non-str tool return value).
For a str value this is the identity; every property below only exercises
str values. -/
def Json.fmt : Json → String
  | .null => "None"
  | .bool true => "True"
  | .bool false => "False"
  | .num n => toString n
  | .str s => s
  | .arr elems => Json.pyRepr (.arr elems)
  | .obj fields => Json.pyRepr (.obj fields)

/-- Lower-case hexadecimal digit. -/
def hexDigit (n : Nat) : Char :=
  if n < 10 then Char.ofNat (48 + n) else Char.ofNat (87 + n)

/-- Four lower-case hexadecimal digits, as in a JSON \u escape. -/
def hex4 (n : Nat) : String :=
  String.mk [hexDigit (n / 4096 % 16), hexDigit (n / 256 % 16),
             hexDigit (n / 16 % 16), hexDigit (n % 16)]

/-- Escaping of one character by Python json.dumps (default ensure_ascii:
everything outside printable ASCII becomes a \u escape, with surrogate pairs
above the basic plane). -/
def escapeCharJSON (c : Char) : String :=
  if c = Char.ofNat 34 then "\\\""
  else if c = Char.ofNat 92 then "\\\\"
  else if c = Char.ofNat 10 then "\\n"
  else if c = Char.ofNat 13 then "\\r"
  else if c = Char.ofNat 9 then "\\t"
  else if c = Char.ofNat 8 then "\\b"
  else if c = Char.ofNat 12 then "\\f"
  else if c.toNat < 32 || c.toNat > 126 then
    if c.toNat < 65536 then "\\u" ++ hex4 c.toNat
    else
      let v := c.toNat - 65536
      "\\u" ++ hex4 (55296 + v / 1024) ++ "\\u" ++ hex4 (56320 + v % 1024)
  else String.singleton c

/-- A JSON string literal as written by json.dumps. -/
def quoteJSON (s : String) : String :=
  "\"" ++ String.join (s.toList.map escapeCharJSON) ++ "\""

mutual

/-- Python json.dumps with default separators (used by embed, server.py
line 232). -/
def jsonDumps : Json → String
  | .null => "null"
  | .bool true => "true"
  | .bool false => "false"
  | .num n => toString n
  | .str s => quoteJSON s
  | .arr elems => "[" ++ dumpsElems elems ++ "]"
  | .obj fields => "\x7b" ++ dumpsFields fields ++ "\x7d"

/-- Comma-separated compact dump of list elements. -/
def dumpsElems : List Json → String
  | [] => ""
  | [x] => jsonDumps x
  | x :: xs => jsonDumps x ++ ", " ++ dumpsElems xs

/-- Comma-separated compact dump of dict items. -/
def dumpsFields : List (String × Json) → String
  | [] => ""
  | [kv] => quoteJSON kv.1 ++ ": " ++ jsonDumps kv.2
  | kv :: kvs => quoteJSON kv.1 ++ ": " ++ jsonDumps kv.2 ++ ", " ++ dumpsFields kvs

end

/-- Indentation of json.dumps(..., indent=2) at a nesting level. -/
def indentOf (lvl : Nat) : String := String.join (List.replicate lvl "  ")

mutual

/-- Python json.dumps(value, indent=2) at a nesting level (used by
show_model, server.py line 142): containers break across lines, empty
containers print inline. -/
def jsonDumpsIndent : Nat → Json → String
  | _, .null => "null"
  | _, .bool true => "true"
  | _, .bool false => "false"
  | _, .num n => toString n
  | _, .str s => quoteJSON s
  | _, .arr [] => "[]"
  | lvl, .arr elems =>
    "[\n" ++ dumpsIndentElems (lvl + 1) elems ++ "\n" ++ indentOf lvl ++ "]"
  | _, .obj [] => "\x7b\x7d"
  | lvl, .obj fields =>
    "\x7b\n" ++ dumpsIndentFields (lvl + 1) fields ++ "\n" ++ indentOf lvl ++ "\x7d"

/-- Array elements of json.dumps(..., indent=2), comma-and-newline
separated. -/
def dumpsIndentElems : Nat → List Json → String
  | _, [] => ""
  | lvl, [x] => indentOf lvl ++ jsonDumpsIndent lvl x
  | lvl, x :: xs =>
    indentOf lvl ++ jsonDumpsIndent lvl x ++ ",\n" ++ dumpsIndentElems lvl xs

/-- Object fields of json.dumps(..., indent=2), comma-and-newline
separated. -/
def dumpsIndentFields : Nat → List (String × Json) → String
  | _, [] => ""
  | lvl, [kv] => indentOf lvl ++ quoteJSON kv.1 ++ ": " ++ jsonDumpsIndent lvl kv.2
  | lvl, kv :: kvs =>
    indentOf lvl ++ quoteJSON kv.1 ++ ": " ++ jsonDumpsIndent lvl kv.2 ++ ",\n" ++
      dumpsIndentFields lvl kvs

end

/-- Python `data.get(k)` where `data` is an arbitrary decoded JSON document:
a non-dict raises `AttributeError` (a non-httpx exception). -/
def pyDictGet? (j : Json) (k : String) : Except BackendError Json :=
  match j with
  | .obj kvs => .ok (pyGet kvs k)
  | _ => .error (.other "AttributeError: object has no attribute get")

/-- Python `data.get(k, default)` on an arbitrary decoded JSON document. -/
def pyDictGetD? (j : Json) (k : String) (d : Json) : Except BackendError Json :=
  match j with
  | .obj kvs => .ok ((lookup? kvs k).getD d)
  | _ => .error (.other "AttributeError: object has no attribute get")

/-- Python `len(v)` (TypeError on values without a length; a dict counts its
distinct keys). -/
def pyLen? (j : Json) : Except BackendError Nat :=
  match j with
  | .str s => .ok s.length
  | .arr l => .ok l.length
  | .obj kvs => .ok (kvs.map Prod.fst).eraseDups.length
  | _ => .error (.other "TypeError: object has no len")

/-- The try/except boundary shared by the tool operations (e.g. server.py
lines 178-182): an `httpx.HTTPError` becomes "Ollama request failed: ...",
any other exception becomes "Error: ...". -/
def toolBoundary (r : Except BackendError String) : String :=
  match r with
  | .ok s => s
  | .error e =>
    if e.isHTTPError then "Ollama request failed: " ++ e.detail
    else "Error: " ++ e.detail

/-- The default backend base address (server.py line 32 with OLLAMA_BASE_URL
unset). -/
def OLLAMA_BASE : String := "http://localhost:11434"

/-- The try/except boundary of list_models (server.py lines 111-115), whose
httpx.HTTPError message carries an extra hint naming the backend address. -/
def listModelsBoundary (r : Except BackendError String) : String :=
  match r with
  | .ok s => s
  | .error e =>
    if e.isHTTPError then
      "Ollama request failed: " ++ e.detail ++ ". Is Ollama running at " ++
        OLLAMA_BASE ++ "?"
    else "Error: " ++ e.detail

/-- Rendering of f"(size / (1024**2)):.0f" for an integer byte count
(server.py line 108): division of an int by 2^20 is exact in binary floating
point for |size| < 2^53, and ":.0f" rounds the quotient half to even. -/
def sizeMB (n : Int) : Int :=
  let q := Int.ediv n 1048576
  let r := Int.emod n 1048576
  if 2 * r < 1048576 then q
  else if 2 * r > 1048576 then q + 1
  else if Int.emod q 2 = 0 then q else q + 1

/-- list_models success path (server.py lines 100-110).  Iterating a truthy
non-list `models` value raises before any return (TypeError on a number,
AttributeError on the elements otherwise), modelled as one generic
exception. -/
def list_models_body (data : Json) : Except BackendError String := do
  let ms ← pyDictGet? data "models"
  let models := if ms.truthy then ms else Json.arr []
  match models with
  | .arr l =>
    if l.isEmpty then
      .ok "No models installed. Use pull_model to pull a model (e.g. llama3.2)."
    else do
      let lines ← l.mapM fun m => do
        let name ← pyDictGetD? m "name" (.str "?")
        let size ← pyDictGet? m "size"
        let sizeStr ←
          if size.truthy then
            match size with
            | .num n => Except.ok (toString (sizeMB n) ++ " MB")
            | _ => Except.error (BackendError.other "TypeError: unsupported operand type")
          else
            Except.ok "?"
        Except.ok ("- " ++ name.fmt ++ " (" ++ sizeStr ++ ")")
      .ok (joinSep "\n" lines)
  | _ => .error (.other "TypeError: object is not iterable")

/-- list_running_models success path (server.py lines 122-126). -/
def list_running_models_body (data : Json) : Except BackendError String := do
  let ms ← pyDictGet? data "models"
  let models := if ms.truthy then ms else Json.arr []
  match models with
  | .arr l =>
    if l.isEmpty then .ok "No models currently loaded."
    else do
      let lines ← l.mapM fun m => do
        let name ← pyDictGetD? m "name" (.str "?")
        Except.ok ("- " ++ name.fmt)
      .ok (joinSep "\n" lines)
  | _ => .error (.other "TypeError: object is not iterable")

/-- show_model success path (server.py line 142): pretty-printed JSON of the
full response. -/
def show_model_body (data : Json) : Except BackendError String :=
  .ok (jsonDumpsIndent 0 data)

/-- chat non-streaming response formatting (server.py lines 173-177). -/
def chat_unary_format (data : Json) : Except BackendError String := do
  let m ← pyDictGet? data "message"
  let msg := if m.truthy then m else Json.obj []
  let c ← pyDictGet? msg "content"
  let content := if c.truthy then c else Json.str ""
  let t ← pyDictGet? msg "thinking"
  if t.truthy then
    pure ("[Thinking] " ++ t.fmt ++ "\n\n" ++ content.fmt)
  else
    pure content.fmt

/-- generate non-streaming response formatting (server.py lines 207-210). -/
def generate_unary_format (data : Json) : Except BackendError String := do
  let r ← pyDictGet? data "response"
  let response := if r.truthy then r else Json.str ""
  let t ← pyDictGet? data "thinking"
  if t.truthy then
    pure ("[Thinking] " ++ t.fmt ++ "\n\n" ++ response.fmt)
  else
    pure response.fmt

/-- embed response formatting (server.py lines 231-232). -/
def embed_format (data : Json) : Except BackendError String := do
  let e ← pyDictGet? data "embeddings"
  let embeddings := if e.truthy then e else Json.arr []
  let count ← pyLen? embeddings
  pure (jsonDumps (Json.obj [("embeddings", embeddings), ("count", Json.num count)]))

/-- pull_model response formatting (server.py lines 254-255). -/
def pull_format (data : Json) : Except BackendError String := do
  let status ← pyDictGetD? data "status" (.str "unknown")
  pure ("Pull status: " ++ status.fmt ++ ". Check Ollama for progress.")

/-- delete_model result (server.py line 271): the response body is
discarded. -/
def delete_format (name : String) (_data : Json) : Except BackendError String :=
  .ok ("Deleted model: " ++ name)

/-- The pull_model request payload (server.py lines 250-252). -/
def pull_payload (name : String) (insecure : Bool) : List (String × Json) :=
  [("name", Json.str name)] ++ (if insecure then [("insecure", Json.bool true)] else [])

/-- The payload transform applied by the stream accumulator (server.py line
63): force the streaming flag on (a merge where the new binding wins, which
with last-binding-wins lookup is an append). -/
def streamedPayload (payload : List (String × Json)) : List (String × Json) :=
  payload ++ [("stream", Json.bool true)]

/-- The list_models tool (server.py lines 96-115), as a function of the
transport outcome of its one backend call. -/
def list_models_tool (tr : Except String UnaryResponse) : String :=
  listModelsBoundary (requestT tr >>= list_models_body)

/-- The list_running_models tool (server.py lines 118-131). -/
def list_running_models_tool (tr : Except String UnaryResponse) : String :=
  toolBoundary (requestT tr >>= list_running_models_body)

/-- The show_model tool (server.py lines 134-147). -/
def show_model_tool (tr : Except String UnaryResponse) : String :=
  toolBoundary (requestT tr >>= show_model_body)

/-- The chat tool with stream=False (server.py lines 152-182). -/
def chat_tool_unary (tr : Except String UnaryResponse) : String :=
  toolBoundary (requestT tr >>= chat_unary_format)

/-- The chat tool with stream=True (server.py lines 165-170 and 178-182):
the accumulator runs with content_key="content". -/
def chat_tool_stream (tr : Except String StreamResponse) : String :=
  toolBoundary (request_streamT "content" tr)

/-- The generate tool with stream=False (server.py lines 185-215). -/
def generate_tool_unary (tr : Except String UnaryResponse) : String :=
  toolBoundary (requestT tr >>= generate_unary_format)

/-- The generate tool with stream=True (server.py line 204): the accumulator
runs with content_key="response". -/
def generate_tool_stream (tr : Except String StreamResponse) : String :=
  toolBoundary (request_streamT "response" tr)

/-- The embed tool (server.py lines 220-237). -/
def embed_tool (tr : Except String UnaryResponse) : String :=
  toolBoundary (requestT tr >>= embed_format)

/-- The pull_model tool (server.py lines 242-260): one unary request. -/
def pull_model_tool (tr : Except String UnaryResponse) : String :=
  toolBoundary (requestT tr >>= pull_format)

/-- The delete_model tool (server.py lines 263-276). -/
def delete_model_tool (name : String) (tr : Except String UnaryResponse) : String :=
  toolBoundary (requestT tr >>= delete_format name)

/-- The tool operations registered on the FastMCP server (the @mcp.tool()
decorated functions of server.py, in source order). -/
def registeredTools : List String :=
  ["list_models", "list_running_models", "show_model", "chat", "generate",
   "embed", "pull_model", "delete_model"]

/-- Reduction of do-notation on a success in the Except monad. -/
@[simp] theorem except_ok_bind {ε α β : Type} (a : α) (f : α → Except ε β) :
    (Except.ok a >>= f) = f a := rfl

/-- Reduction of do-notation on a failure in the Except monad. -/
@[simp] theorem except_error_bind {ε α β : Type} (e : ε) (f : α → Except ε β) :
    ((Except.error e : Except ε α) >>= f) = .error e := rfl

/-- The decoded chunk of a line, if any. -/
def Line.chunk? : Line → Option Json
  | .frag c => some c
  | _ => none

/-- The decoded fragments of a line sequence, in arrival order: blank lines
and JSON-decode failures contribute nothing. -/
def chunksOf (lines : List Line) : List Json :=
  lines.filterMap Line.chunk?

/-- Declarative reading of which content value a single fragment makes the
accumulator consult (server.py lines 83-87): the nested value when the
message field holds a dict containing the content key, else the top-level
value when the key is present, else nothing. -/
def fragContentValue? (ck : String) : Json → Option Json
  | .obj kvs =>
    if (msgOf kvs).isDict && (msgOf kvs).hasKey ck then some ((msgOf kvs).dictGet ck)
    else if Json.hasKey (.obj kvs) ck then some (pyGet kvs ck)
    else none
  | _ => none

/-- Declarative reading of which reasoning value a single fragment appends
(server.py lines 77-82): the nested message-level thinking value when
truthy, else the top-level thinking value when truthy, else nothing — by
construction never both. -/
def thinkingValue? : Json → Option Json
  | .obj kvs =>
    if (msgOf kvs).isDict && ((msgOf kvs).dictGet "thinking").truthy then
      some ((msgOf kvs).dictGet "thinking")
    else if (pyGet kvs "thinking").truthy then some (pyGet kvs "thinking")
    else none
  | _ => none

/-- What one line appends to the content buffer. -/
def Line.contentPush (ck : String) : Line → Option Json
  | .frag c => (fragContentValue? ck c).map Json.orEmptyStr
  | _ => none

/-- What one line appends to the thinking buffer. -/
def Line.thinkingPush : Line → Option Json
  | .frag c => thinkingValue? c
  | _ => none

/-- Whether a line folds without raising: blank and malformed lines always
do, a decoded fragment iff its chunk is a dict. -/
def Line.okLine : Line → Bool
  | .frag c => c.isDict
  | _ => true

/-- Well-formedness of one line for the final joins: the values it pushes
are strings (every claim's scenarios are about textual content/reasoning
fields). -/
def Line.wfLine (ck : String) (l : Line) : Bool :=
  l.okLine && (l.contentPush ck).all Json.isStr && (l.thinkingPush).all Json.isStr

/-- Well-formedness of a whole stream body. -/
def streamWF (ck : String) (lines : List Line) : Bool :=
  lines.all (Line.wfLine ck)

/-- The text one fragment contributes to the accumulated content, per the
specification sentence: the consulted content field's value, the empty
string for a null (or otherwise falsy or non-textual) value, nothing when
the field is absent. -/
def fragContentText (ck : String) (chunk : Json) : String :=
  match fragContentValue? ck chunk with
  | none => ""
  | some v => v.textOf

/-- The content texts of a line sequence, fragment by fragment in arrival
order. -/
def contentTexts (ck : String) (lines : List Line) : List String :=
  (chunksOf lines).map (fragContentText ck)

/-- The reasoning texts contributed by a line sequence, in arrival order. -/
def thinkingTexts (lines : List Line) : List String :=
  lines.filterMap fun l => (Line.thinkingPush l).bind Json.asString?

/-- Folding one dict chunk appends exactly the declaratively-read pushes to
the two buffers. -/
theorem processChunk_obj (ck : String) (st : AccState) (kvs : List (String × Json)) :
    processChunk ck st (.obj kvs) =
      .ok ⟨st.contentParts ++ ((fragContentValue? ck (.obj kvs)).map Json.orEmptyStr).toList,
           st.thinkingParts ++ (thinkingValue? (.obj kvs)).toList⟩ := by
  simp only [processChunk, fragContentValue?, thinkingValue?]
  split_ifs <;> simp

/-- The stream fold from an arbitrary starting state appends the pushes of
the lines, in arrival order, provided every fragment chunk is a dict. -/
theorem foldl_lines (ck : String) (lines : List Line) (st : AccState)
    (h : lines.all Line.okLine = true) :
    lines.foldlM (processLine ck) st =
      .ok ⟨st.contentParts ++ lines.filterMap (Line.contentPush ck),
           st.thinkingParts ++ lines.filterMap Line.thinkingPush⟩ := by
  induction lines generalizing st with
  | nil => simp only [List.filterMap_nil, List.append_nil]; rfl
  | cons l ls ih =>
    simp only [List.all_cons, Bool.and_eq_true] at h
    cases l with
    | blank =>
      simpa [List.foldlM_cons, processLine, Line.contentPush, Line.thinkingPush]
        using ih st h.2
    | malformed raw =>
      simpa [List.foldlM_cons, processLine, Line.contentPush, Line.thinkingPush]
        using ih st h.2
    | frag c =>
      cases c with
      | obj kvs =>
        rw [List.foldlM_cons]
        simp only [processLine, processChunk_obj]
        rw [show ∀ st' : AccState, (Except.ok st' : Except String AccState) >>=
              (fun s => ls.foldlM (processLine ck) s) = ls.foldlM (processLine ck) st'
            from fun _ => rfl]
        rw [ih _ h.2]
        cases hc : fragContentValue? ck (Json.obj kvs) <;>
          cases ht : thinkingValue? (Json.obj kvs) <;>
            simp [List.filterMap_cons, Line.contentPush, Line.thinkingPush, hc, ht]
      | null => simp [Line.okLine, Json.isDict] at h
      | bool b => simp [Line.okLine, Json.isDict] at h
      | num n => simp [Line.okLine, Json.isDict] at h
      | str s => simp [Line.okLine, Json.isDict] at h
      | arr elems => simp [Line.okLine, Json.isDict] at h

/-- The accumulator on a well-typed body yields exactly the two push
sequences. -/
theorem accumulate_eq (ck : String) (lines : List Line)
    (h : lines.all Line.okLine = true) :
    accumulate ck lines =
      .ok ⟨lines.filterMap (Line.contentPush ck), lines.filterMap Line.thinkingPush⟩ := by
  simpa using foldl_lines ck lines ⟨[], []⟩ h

/-- Appending the empty string on the right is the identity. -/
theorem str_append_empty (s : String) : s ++ "" = s := by
  cases s with
  | mk l => show String.mk (l ++ []) = String.mk l; rw [List.append_nil]

/-- Joining with an empty separator peels off the head string. -/
theorem joinSep_empty_cons (x : String) (xs : List String) :
    joinSep "" (x :: xs) = x ++ joinSep "" xs := by
  cases xs with
  | nil => simp [joinSep, str_append_empty]
  | cons y ys => simp [joinSep, str_append_empty]

/-- A falsied-to-empty content value is a string exactly when demanded by
well-formedness, and its text is the declarative per-fragment text. -/
theorem orEmptyStr_textOf (v : Json) (h : v.orEmptyStr.isStr = true) :
    v.orEmptyStr = .str v.textOf := by
  cases v with
  | str s =>
    by_cases hs : s = "" <;> simp [Json.orEmptyStr, Json.truthy, Json.textOf, hs]
  | null => rfl
  | bool b => cases b <;> simp_all [Json.orEmptyStr, Json.truthy, Json.isStr, Json.textOf]
  | num n =>
    by_cases hn : n = 0 <;> simp_all [Json.orEmptyStr, Json.truthy, Json.isStr, Json.textOf]
  | arr elems =>
    cases elems <;> simp_all [Json.orEmptyStr, Json.truthy, Json.isStr, Json.textOf]
  | obj fields =>
    cases fields <;> simp_all [Json.orEmptyStr, Json.truthy, Json.isStr, Json.textOf]

/-- pyJoin with empty separator peels off a head string element. -/
theorem pyJoin_empty_cons (s : String) (parts : List Json) :
    pyJoin "" (.str s :: parts) = (pyJoin "" parts).map (fun r => s ++ r) := by
  simp only [pyJoin, List.all_cons, Json.isStr, Bool.true_and, List.filterMap_cons,
    Json.asString?]
  by_cases hall : parts.all Json.isStr = true <;>
    simp [hall, joinSep_empty_cons]

/-- On a well-formed body, joining the content pushes with the empty
separator gives the ordered concatenation of the per-fragment content
texts. -/
theorem content_join (ck : String) (lines : List Line)
    (h : streamWF ck lines = true) :
    pyJoin "" (lines.filterMap (Line.contentPush ck)) =
      some (joinSep "" (contentTexts ck lines)) := by
  induction lines with
  | nil => rfl
  | cons l ls ih =>
    simp only [streamWF, List.all_cons, Bool.and_eq_true] at h
    have ihl := ih h.2
    cases l with
    | blank =>
      simpa [Line.contentPush, List.filterMap_cons, contentTexts, chunksOf, Line.chunk?]
        using ihl
    | malformed raw =>
      simpa [Line.contentPush, List.filterMap_cons, contentTexts, chunksOf, Line.chunk?]
        using ihl
    | frag c =>
      have hwf := h.1
      simp only [Line.wfLine, Bool.and_eq_true] at hwf
      have htexts : contentTexts ck (.frag c :: ls) =
          fragContentText ck c :: contentTexts ck ls := by
        simp [contentTexts, chunksOf, Line.chunk?, List.filterMap_cons]
      cases hv : fragContentValue? ck c with
      | none =>
        have htext : fragContentText ck c = "" := by simp [fragContentText, hv]
        have hpush : Line.contentPush ck (.frag c) = none := by
          simp [Line.contentPush, hv]
        rw [List.filterMap_cons, hpush, ihl, htexts, htext, joinSep_empty_cons]
        have : ("" : String) ++ joinSep "" (contentTexts ck ls) =
            joinSep "" (contentTexts ck ls) := rfl
        rw [this]
      | some v =>
        have hstr : (Option.all Json.isStr (Line.contentPush ck (.frag c))) = true :=
          hwf.1.2
        rw [Line.contentPush] at hstr
        simp only [hv, Option.map_some] at hstr
        have hstr2 : v.orEmptyStr.isStr = true := by
          simpa [Option.all] using hstr
        have hpush : Line.contentPush ck (.frag c) = some (.str v.textOf) := by
          simp [Line.contentPush, hv, orEmptyStr_textOf v hstr2]
        have htext : fragContentText ck c = v.textOf := by simp [fragContentText, hv]
        rw [List.filterMap_cons, hpush, htexts, htext]
        simp only [pyJoin_empty_cons, ihl, Option.map_some, joinSep_empty_cons]
        rfl

/-- Every fragment chunk of a well-formed body is a dict. -/
theorem streamWF_ok (ck : String) (lines : List Line) (h : streamWF ck lines = true) :
    lines.all Line.okLine = true := by
  rw [List.all_eq_true]
  intro l hl
  have hw := (List.all_eq_true.mp h) l hl
  simp only [Line.wfLine, Bool.and_eq_true] at hw
  exact hw.1.1

/-- The thinking pushes of a well-formed body are all strings. -/
theorem thinking_pushes_str (ck : String) (lines : List Line)
    (h : streamWF ck lines = true) :
    (lines.filterMap Line.thinkingPush).all Json.isStr = true := by
  rw [List.all_eq_true]
  intro v hv
  rw [List.mem_filterMap] at hv
  obtain ⟨l, hl, hpush⟩ := hv
  have hw := (List.all_eq_true.mp h) l hl
  simp only [Line.wfLine, Bool.and_eq_true] at hw
  have h2 := hw.2
  rw [hpush] at h2
  simpa [Option.all] using h2

/-- On a well-formed body, joining the thinking pushes gives the
space-separated join of the contributed reasoning texts. -/
theorem thinking_join (ck : String) (lines : List Line)
    (h : streamWF ck lines = true) :
    pyJoin " " (lines.filterMap Line.thinkingPush) =
      some (joinSep " " (thinkingTexts lines)) := by
  have hall := thinking_pushes_str ck lines h
  simp only [pyJoin, hall, if_true]
  rw [List.filterMap_filterMap]
  rfl

/-- The specified final string of a successfully accumulated stream: the
ordered content concatenation, prefixed by the labelled reasoning block
exactly when some fragment pushed reasoning text. -/
def streamResultSpec (ck : String) (lines : List Line) : String :=
  if (lines.filterMap Line.thinkingPush).isEmpty then
    joinSep "" (contentTexts ck lines)
  else
    "[Thinking] " ++ pyStrip (joinSep " " (thinkingTexts lines)) ++ "\n\n" ++
      joinSep "" (contentTexts ck lines)

/-- On a well-formed body the accumulator succeeds with the two push
sequences and renders to the specified final string. -/
theorem render_accumulate (ck : String) (lines : List Line)
    (h : streamWF ck lines = true) :
    accumulate ck lines =
        .ok ⟨lines.filterMap (Line.contentPush ck), lines.filterMap Line.thinkingPush⟩ ∧
      renderResult ⟨lines.filterMap (Line.contentPush ck), lines.filterMap Line.thinkingPush⟩ =
        some (streamResultSpec ck lines) := by
  refine ⟨accumulate_eq ck lines (streamWF_ok ck lines h), ?_⟩
  simp only [renderResult, streamResultSpec, content_join ck lines h, Option.some_bind,
    Option.bind_eq_bind]
  by_cases he : (lines.filterMap Line.thinkingPush).isEmpty
  · simp [he]
  · simp [he, thinking_join ck lines h]

/-- On a well-formed body with a success status and normal EOF, the streaming
executor returns exactly the specified final string. -/
theorem request_stream_spec (ck : String) (lines : List Line)
    (h : streamWF ck lines = true) :
    request_stream ck ⟨200, lines, .eof⟩ = .ok (streamResultSpec ck lines) := by
  have hacc := (render_accumulate ck lines h).1
  have hrender := (render_accumulate ck lines h).2
  simp only [request_stream, isSuccessStatus]
  norm_num
  rw [hacc]
  simp [hrender]

/-- C1: for every sequence of valid NDJSON fragments consumed by the stream
accumulator (every chunk a dict with textual content fields), the final
accumulated content equals the concatenation, in arrival order of the lines,
of each fragment's primary-content field value — empty string for a null
value, nothing for an absent field — regardless of fragment count or
interleaved blank lines, with no reordering and no deduplication: the
right-hand side is the in-order concatenation over `chunksOf lines`, which
blank lines never enter. -/
theorem c1_content_is_ordered_concat (ck : String) (lines : List Line)
    (h : streamWF ck lines = true) :
    ∃ st, accumulate ck lines = .ok st ∧
      pyJoin "" st.contentParts = some (joinSep "" ((chunksOf lines).map (fragContentText ck))) :=
  ⟨_, accumulate_eq ck lines (streamWF_ok ck lines h), content_join ck lines h⟩

/-- Witness for C1: a chat-style stream of two fragments with an interleaved
blank line and a null content value concatenates to "Hi there". -/
theorem c1_content_is_ordered_concat_witness :
    ∃ st, accumulate "content"
        [.frag (.obj [("message", .obj [("content", .str "Hi")]), ("done", .bool false)]),
         .blank,
         .frag (.obj [("message", .obj [("content", .null)])]),
         .frag (.obj [("message", .obj [("content", .str " there")]), ("done", .bool true)])] = .ok st ∧
      pyJoin "" st.contentParts = some (joinSep ""
        ((chunksOf
          [.frag (.obj [("message", .obj [("content", .str "Hi")]), ("done", .bool false)]),
           .blank,
           .frag (.obj [("message", .obj [("content", .null)])]),
           .frag (.obj [("message", .obj [("content", .str " there")]), ("done", .bool true)])]).map
          (fragContentText "content"))) :=
  c1_content_is_ordered_concat "content" _ (by rfl)

/-- C2: on a well-formed stream the final string carries the labelled
reasoning block (space-joined, trimmed, blank line, then the content)
exactly when at least one fragment pushed reasoning text, and is the bare
content otherwise; and a single fragment whose nested message-level thinking
field holds a non-empty string pushes exactly that one value — the top-level
thinking field, whatever it holds, is not also appended for that fragment. -/
theorem c2_reasoning_block_iff (ck : String) (lines : List Line)
    (h : streamWF ck lines = true) :
    (request_stream ck ⟨200, lines, .eof⟩ =
      .ok (if (lines.filterMap Line.thinkingPush).isEmpty then
             joinSep "" (contentTexts ck lines)
           else
             "[Thinking] " ++ pyStrip (joinSep " " (thinkingTexts lines)) ++ "\n\n" ++
               joinSep "" (contentTexts ck lines))) ∧
    ((lines.filterMap Line.thinkingPush).isEmpty = false ↔
      ∃ c ∈ chunksOf lines, thinkingValue? c ≠ none) ∧
    (∀ st kvs t, (msgOf kvs).dictGet "thinking" = .str t → t ≠ "" →
      ∃ st', processChunk ck st (.obj kvs) = .ok st' ∧
        st'.thinkingParts = st.thinkingParts ++ [.str t]) := by
  refine ⟨request_stream_spec ck lines h, ?_, ?_⟩
  · have hnil : (lines.filterMap Line.thinkingPush = []) ↔
        ∀ c ∈ chunksOf lines, thinkingValue? c = none := by
      rw [List.filterMap_eq_nil_iff]
      constructor
      · intro hall c hc
        rw [chunksOf, List.mem_filterMap] at hc
        obtain ⟨l, hl, hlc⟩ := hc
        have := hall l hl
        cases l <;> simp_all [Line.chunk?, Line.thinkingPush]
      · intro hall l hl
        cases l with
        | blank => rfl
        | malformed raw => rfl
        | frag c =>
          exact hall c (by rw [chunksOf, List.mem_filterMap]; exact ⟨.frag c, hl, rfl⟩)
    rw [List.isEmpty_eq_false, ne_eq, hnil]
    push_neg
    rfl
  · intro st kvs t hnt hne
    have hdict : (msgOf kvs).isDict = true := by
      cases hm : msgOf kvs <;> simp_all [Json.dictGet, Json.isDict]
    have htruthy : ((msgOf kvs).dictGet "thinking").truthy = true := by
      rw [hnt]; simpa [Json.truthy] using hne
    refine ⟨_, processChunk_obj ck st kvs, ?_⟩
    have hval : thinkingValue? (.obj kvs) = some (.str t) := by
      rw [thinkingValue?]
      rw [if_pos (by rw [hdict, htruthy]; rfl)]
      rw [hnt]
    simp [hval]

/-- Witness for C2: a single fragment carrying both a non-empty nested
thinking field and a non-empty top-level thinking field contributes only the
nested one, and the final string carries the reasoning block. -/
theorem c2_reasoning_block_iff_witness :
    request_stream "content"
      ⟨200, [.frag (.obj [("message", .obj [("content", .str "Yes."), ("thinking", .str "deep")]),
                          ("thinking", .str "shallow")])], .eof⟩ =
      .ok "[Thinking] deep\n\nYes." := by
  have hc := (c2_reasoning_block_iff "content"
    [.frag (.obj [("message", .obj [("content", .str "Yes."), ("thinking", .str "deep")]),
                  ("thinking", .str "shallow")])] (by rfl)).1
  rw [hc]
  rfl

/-- C3: a stream that drops mid-read is never a success — and on a
well-formed body the failure is precisely the transport error, so the chat
tool returns the failure string, which is independent of everything
accumulated before the drop (the partial accumulation is discarded). -/
theorem c3_midstream_drop_yields_failure (ck d : String) (lines : List Line) :
    ((request_stream ck ⟨200, lines, .dropped d⟩).isOk = false) ∧
    (streamWF ck lines = true →
      request_stream ck ⟨200, lines, .dropped d⟩ = .error (.transport d)) ∧
    (streamWF "content" lines = true →
      chat_tool_stream (.ok ⟨200, lines, .dropped d⟩) = "Ollama request failed: " ++ d) := by
  refine ⟨?_, ?_, ?_⟩
  · simp only [request_stream, isSuccessStatus]
    norm_num
    cases accumulate ck lines <;> rfl
  · intro h
    have hacc := accumulate_eq ck lines (streamWF_ok ck lines h)
    simp only [request_stream, isSuccessStatus]
    norm_num
    rw [hacc]
  · intro h
    have hacc := accumulate_eq "content" lines (streamWF_ok "content" lines h)
    simp only [chat_tool_stream, request_streamT, request_stream, isSuccessStatus]
    norm_num
    rw [hacc]
    rfl

/-- Witness for C3: a drop after one accumulated fragment yields the failure
string, not the partial content "Hi". -/
theorem c3_midstream_drop_yields_failure_witness :
    chat_tool_stream (.ok ⟨200, [.frag (.obj [("message", .obj [("content", .str "Hi")])])],
        .dropped "ConnectionClosed"⟩) =
      "Ollama request failed: ConnectionClosed" :=
  (c3_midstream_drop_yields_failure "content" "ConnectionClosed"
    [.frag (.obj [("message", .obj [("content", .str "Hi")])])]).2.2 (by rfl)

/-- C4: a non-blank line that fails to decode as JSON is skipped without
raising: the whole streaming call behaves exactly as if the line were not
there, for every surrounding context, status and termination — so every
subsequent valid line keeps its contribution. -/
theorem c4_malformed_line_skipped (ck s : String) (pre post : List Line) (stat : Nat)
    (term : StreamEnd) :
    request_stream ck ⟨stat, pre ++ [.malformed s] ++ post, term⟩ =
      request_stream ck ⟨stat, pre ++ post, term⟩ := by
  have hacc : accumulate ck (pre ++ [.malformed s] ++ post) = accumulate ck (pre ++ post) := by
    simp only [accumulate, List.foldlM_append, List.foldlM_cons, List.foldlM_nil,
      processLine, pure_bind, bind_assoc, bind_pure]
    exact bind_congr fun x => rfl
  simp only [request_stream, hacc]

/-- C5: every modelled tool operation returns a plain string for every
transport outcome — a raised condition never escapes — and each failure
class maps to the documented form: httpx failures (transport errors and
non-success statuses) to "Ollama request failed: <detail>" (list_models adds
its hint suffix), all other exceptions (undecodable body, unexpected
response shape) to "Error: <detail>". -/
theorem c5_tool_error_boundary (d raw : String) (r : UnaryResponse) :
    (chat_tool_unary (.error d) = "Ollama request failed: " ++ d) ∧
    (generate_tool_unary (.error d) = "Ollama request failed: " ++ d) ∧
    (pull_model_tool (.error d) = "Ollama request failed: " ++ d) ∧
    (∀ name, delete_model_tool name (.error d) = "Ollama request failed: " ++ d) ∧
    (show_model_tool (.error d) = "Ollama request failed: " ++ d) ∧
    (embed_tool (.error d) = "Ollama request failed: " ++ d) ∧
    (list_running_models_tool (.error d) = "Ollama request failed: " ++ d) ∧
    (list_models_tool (.error d) =
      "Ollama request failed: " ++ d ++ ". Is Ollama running at " ++ OLLAMA_BASE ++ "?") ∧
    (chat_tool_stream (.error d) = "Ollama request failed: " ++ d) ∧
    (generate_tool_stream (.error d) = "Ollama request failed: " ++ d) ∧
    (isSuccessStatus r.status = false →
      chat_tool_unary (.ok r) = "Ollama request failed: HTTP " ++ toString r.status) ∧
    (isSuccessStatus r.status = false →
      pull_model_tool (.ok r) = "Ollama request failed: HTTP " ++ toString r.status) ∧
    (isSuccessStatus r.status = true → r.body = .invalid raw →
      chat_tool_unary (.ok r) = "Error: JSONDecodeError: " ++ raw) ∧
    (isSuccessStatus r.status = true → r.body = .jsonBody (.arr []) →
      chat_tool_unary (.ok r) = "Error: AttributeError: object has no attribute get") := by
  obtain ⟨stat, body⟩ := r
  refine ⟨rfl, rfl, rfl, fun name => rfl, rfl, rfl, rfl, rfl, rfl, rfl, ?_, ?_, ?_, ?_⟩
  · intro h
    simp_all [chat_tool_unary, toolBoundary, requestT, request, BackendError.isHTTPError,
      BackendError.detail] <;> rfl
  · intro h
    simp_all [pull_model_tool, toolBoundary, requestT, request, BackendError.isHTTPError,
      BackendError.detail] <;> rfl
  · intro h hb
    subst hb
    simp_all [chat_tool_unary, toolBoundary, requestT, request, BackendError.isHTTPError,
      BackendError.detail] <;> rfl
  · intro h hb
    subst hb
    simp_all [chat_tool_unary, toolBoundary, requestT, request, BackendError.isHTTPError,
      BackendError.detail, chat_unary_format, pyDictGet?] <;> rfl

/-- Witness for C5 at concrete failures: a connection error, a 404, an
undecodable 200 body, and a 200 body that decodes to a JSON array. -/
theorem c5_tool_error_boundary_witness :
    chat_tool_unary (.error "ConnectError: nope") = "Ollama request failed: ConnectError: nope" ∧
    chat_tool_unary (.ok ⟨404, .empty⟩) = "Ollama request failed: HTTP 404" ∧
    chat_tool_unary (.ok ⟨200, .invalid "not json"⟩) = "Error: JSONDecodeError: not json" ∧
    chat_tool_unary (.ok ⟨200, .jsonBody (.arr [])⟩) =
      "Error: AttributeError: object has no attribute get" :=
  ⟨(c5_tool_error_boundary "ConnectError: nope" "" ⟨200, .empty⟩).1,
   (c5_tool_error_boundary "" "" ⟨404, .empty⟩).2.2.2.2.2.2.2.2.2.2.1 (by rfl),
   (c5_tool_error_boundary "" "not json" ⟨200, .invalid "not json"⟩).2.2.2.2.2.2.2.2.2.2.2.2.1
     (by rfl) rfl,
   (c5_tool_error_boundary "" "" ⟨200, .jsonBody (.arr [])⟩).2.2.2.2.2.2.2.2.2.2.2.2.2
     (by rfl) rfl⟩

/-- C6: the unary request executor fails with the typed HTTP error carrying
the status and body on every non-success status; on success it returns the
decoded JSON value of a non-empty body, and an empty object for an empty
body. -/
theorem c6_unary_request_contract (resp : UnaryResponse) :
    (isSuccessStatus resp.status = false →
      request resp = .error (.httpStatus resp.status (some resp.body))) ∧
    (∀ v, isSuccessStatus resp.status = true → resp.body = .jsonBody v →
      request resp = .ok v) ∧
    (isSuccessStatus resp.status = true → resp.body = .empty →
      request resp = .ok (.obj [])) := by
  refine ⟨fun h => by simp [request, h], fun v h hb => by simp [request, h, hb],
    fun h hb => by simp [request, h, hb]⟩

/-- Witness for C6: a 404 with a JSON body, a 200 with a JSON array body,
and a 204 with an empty body. -/
theorem c6_unary_request_contract_witness :
    request ⟨404, .jsonBody (.obj [("error", .str "gone")])⟩ =
      .error (.httpStatus 404 (some (.jsonBody (.obj [("error", .str "gone")])))) ∧
    request ⟨200, .jsonBody (.arr [.num 1, .num 2])⟩ = .ok (.arr [.num 1, .num 2]) ∧
    request ⟨204, .empty⟩ = .ok (.obj []) :=
  ⟨(c6_unary_request_contract ⟨404, .jsonBody (.obj [("error", .str "gone")])⟩).1 (by rfl),
   (c6_unary_request_contract ⟨200, .jsonBody (.arr [.num 1, .num 2])⟩).2.1 _ (by rfl) rfl,
   (c6_unary_request_contract ⟨204, .empty⟩).2.2 (by rfl) rfl⟩

/-- C7: pull_model does not drive its endpoint in streaming mode: its
request payload carries no streaming flag at all (the accumulator's payload
transform would force one), and its result string is computed from the
single decoded unary response — "Pull status: ..." — not from a fold of
incremental status fragments. -/
theorem c7_pull_model_is_unary_not_stream :
    lookup? (pull_payload "llama3.2" false) "stream" = none ∧
    lookup? (pull_payload "llama3.2" true) "stream" = none ∧
    lookup? (streamedPayload (pull_payload "llama3.2" false)) "stream" = some (.bool true) ∧
    pull_model_tool (.ok ⟨200, .jsonBody (.obj [("status", .str "success")])⟩) =
      "Pull status: success. Check Ollama for progress." :=
  ⟨rfl, rfl, rfl, rfl⟩

/-- C8: the core registers exactly eight tool operations and none of them is
copy_model. -/
theorem c8_eight_tools_without_copy_model :
    registeredTools.length = 8 ∧ "copy_model" ∉ registeredTools := by
  refine ⟨rfl, ?_⟩
  decide

/-- C9: on the unary paths the reasoning-labelled block appears exactly as
in the streaming accumulator: chat prefixes "[Thinking] <thinking>" and a
blank line when the message-nested thinking field holds a non-empty string,
generate does the same for the top-level thinking field, and in both cases
the content (empty string when the field is missing or null) is returned
alone when the thinking field is absent, null or empty — an absent field
is exactly what `pyGet` maps to null, and a chat response with an absent or
null message behaves as the empty message dict. -/
theorem c9_unary_reasoning_paths (kvs mkvs : List (String × Json)) (t c r : String) :
    ((pyGet kvs "message" = .obj mkvs ∨ (pyGet kvs "message" = .null ∧ mkvs = [])) →
      (pyGet mkvs "thinking" = .str t ∨ (pyGet mkvs "thinking" = .null ∧ t = "")) →
      (pyGet mkvs "content" = .str c ∨ (pyGet mkvs "content" = .null ∧ c = "")) →
      chat_unary_format (.obj kvs) =
        .ok (if t = "" then c else "[Thinking] " ++ t ++ "\n\n" ++ c)) ∧
    ((pyGet kvs "thinking" = .str t ∨ (pyGet kvs "thinking" = .null ∧ t = "")) →
      (pyGet kvs "response" = .str r ∨ (pyGet kvs "response" = .null ∧ r = "")) →
      generate_unary_format (.obj kvs) =
        .ok (if t = "" then r else "[Thinking] " ++ t ++ "\n\n" ++ r)) := by
  have hifobj : ∀ fields : List (String × Json),
      (if (Json.obj fields).truthy = true then Json.obj fields else Json.obj []) =
        Json.obj fields := by
    intro fields
    cases fields <;> simp [Json.truthy]
  have hifstr : ∀ s : String,
      (if (Json.str s).truthy = true then Json.str s else Json.str "") = Json.str s := by
    intro s
    by_cases hs : s = "" <;> simp [Json.truthy, hs]
  have hifnull : (if (Json.null).truthy = true then Json.null else Json.str "") =
      Json.str "" := by simp [Json.truthy]
  constructor
  · intro hm ht hc
    have hmsg : (if (pyGet kvs "message").truthy = true then pyGet kvs "message"
        else Json.obj []) = Json.obj mkvs := by
      rcases hm with hm | ⟨hm, hm0⟩
      · rw [hm, hifobj]
      · subst hm0
        rw [hm]
        simp [Json.truthy]
    have hcv : (if (pyGet mkvs "content").truthy = true then pyGet mkvs "content"
        else Json.str "") = Json.str c := by
      rcases hc with hc | ⟨hc, hc0⟩
      · rw [hc, hifstr]
      · subst hc0
        rw [hc, hifnull]
    rcases ht with ht | ⟨ht, ht0⟩
    · by_cases h0 : t = ""
      · subst h0
        simp [chat_unary_format, pyDictGet?, hmsg, hcv, ht, Json.fmt,
          show (Json.str "").truthy = false from rfl]
      · have htt : (Json.str t).truthy = true := by simp [Json.truthy, h0]
        simp [chat_unary_format, pyDictGet?, hmsg, hcv, ht, htt, Json.fmt, h0]
    · subst ht0
      simp [chat_unary_format, pyDictGet?, hmsg, hcv, ht, Json.fmt,
        show (Json.null).truthy = false from rfl]
  · intro ht hr
    have hresp : (if (pyGet kvs "response").truthy = true then pyGet kvs "response"
        else Json.str "") = Json.str r := by
      rcases hr with hr | ⟨hr, hr0⟩
      · rw [hr, hifstr]
      · subst hr0
        rw [hr, hifnull]
    rcases ht with ht | ⟨ht, ht0⟩
    · by_cases h0 : t = ""
      · subst h0
        simp [generate_unary_format, pyDictGet?, ht, hresp, Json.fmt,
          show (Json.str "").truthy = false from rfl]
      · have htt : (Json.truthy (.str t)) = true := by simp [Json.truthy, h0]
        simp [generate_unary_format, pyDictGet?, ht, hresp, htt, Json.fmt, h0]
    · subst ht0
      simp [generate_unary_format, pyDictGet?, ht, hresp, Json.fmt,
        show (Json.null).truthy = false from rfl]

/-- Witness for C9: a chat response with nested thinking, a generate
response with top-level thinking, the specification example of a generate
response with the thinking field absent, and a chat response with the
message field absent. -/
theorem c9_unary_reasoning_paths_witness :
    chat_unary_format (.obj [("message", .obj [("role", .str "assistant"),
        ("content", .str "Yes."), ("thinking", .str "Brief thought.")])]) =
      .ok "[Thinking] Brief thought.\n\nYes." ∧
    generate_unary_format (.obj [("response", .str "Out."), ("thinking", .str "Hm")]) =
      .ok "[Thinking] Hm\n\nOut." ∧
    generate_unary_format (.obj [("response", .str "Generated text.")]) =
      .ok "Generated text." ∧
    chat_unary_format (.obj [("model", .str "m")]) = .ok "" := by
  refine ⟨?_, ?_, ?_, ?_⟩
  · have h := (c9_unary_reasoning_paths
      [("message", .obj [("role", .str "assistant"), ("content", .str "Yes."),
        ("thinking", .str "Brief thought.")])]
      [("role", .str "assistant"), ("content", .str "Yes."), ("thinking", .str "Brief thought.")]
      "Brief thought." "Yes." "").1 (Or.inl rfl) (Or.inl rfl) (Or.inl rfl)
    rw [h]
    rfl
  · have h := (c9_unary_reasoning_paths [("response", .str "Out."), ("thinking", .str "Hm")]
      [] "Hm" "" "Out.").2 (Or.inl rfl) (Or.inl rfl)
    rw [h]
    rfl
  · have h := (c9_unary_reasoning_paths [("response", .str "Generated text.")]
      [] "" "" "Generated text.").2 (Or.inr ⟨rfl, rfl⟩) (Or.inl rfl)
    rw [h]
    rfl
  · have h := (c9_unary_reasoning_paths [("model", .str "m")] [] "" "" "").1
      (Or.inr ⟨rfl, rfl⟩) (Or.inr ⟨rfl, rfl⟩) (Or.inr ⟨rfl, rfl⟩)
    rw [h]
    rfl

/-- C10: the per-fragment content lookup mirrors the reasoning precedence:
when the message value is a dict containing the content key the nested value
is appended (whatever the top-level key holds, it is not consulted);
the top-level key is consulted exactly when the message slot yields no dict
containing the key; and folding a dict fragment never fails, whatever its
message value is. -/
theorem c10_content_lookup_precedence (ck : String) (st : AccState) :
    (∀ kvs mkvs v, pyGet kvs "message" = .obj mkvs → lookup? mkvs ck = some v →
      (processChunk ck st (.obj kvs)).map AccState.contentParts =
        .ok (st.contentParts ++ [v.orEmptyStr])) ∧
    (∀ kvs v, ((msgOf kvs).isDict && (msgOf kvs).hasKey ck) = false →
      lookup? kvs ck = some v →
      (processChunk ck st (.obj kvs)).map AccState.contentParts =
        .ok (st.contentParts ++ [v.orEmptyStr])) ∧
    (∀ kvs, ((msgOf kvs).isDict && (msgOf kvs).hasKey ck) = false →
      lookup? kvs ck = none →
      (processChunk ck st (.obj kvs)).map AccState.contentParts = .ok st.contentParts) ∧
    (∀ kvs, ∃ st', processChunk ck st (.obj kvs) = .ok st') := by
  refine ⟨?_, ?_, ?_, fun kvs => ⟨_, processChunk_obj ck st kvs⟩⟩
  · intro kvs mkvs v hm hv
    have hmne : mkvs ≠ [] := by
      intro he
      subst he
      simp [lookup?] at hv
    have hmsg : msgOf kvs = .obj mkvs := by
      simp [msgOf, hm, Json.truthy, List.isEmpty_eq_false.mpr hmne]
    have hfv : fragContentValue? ck (.obj kvs) = some (pyGet mkvs ck) := by
      simp [fragContentValue?, hmsg, Json.isDict, Json.hasKey, hv, Json.dictGet]
    have hvv : pyGet mkvs ck = v := by simp [pyGet, hv]
    rw [processChunk_obj, hfv, hvv]
    rfl
  · intro kvs v hguard hv
    have hfv : fragContentValue? ck (.obj kvs) = some (pyGet kvs ck) := by
      simp only [fragContentValue?]
      rw [hguard]
      simp [Json.hasKey, hv]
    have hvv : pyGet kvs ck = v := by simp [pyGet, hv]
    rw [processChunk_obj, hfv, hvv]
    rfl
  · intro kvs hguard hv
    have hfv : fragContentValue? ck (.obj kvs) = none := by
      simp only [fragContentValue?]
      rw [hguard]
      simp [Json.hasKey, hv]
    rw [processChunk_obj, hfv]
    simp [Except.map]

/-- Witness for C10: a fragment whose message dict holds the content key
"Hi" while a conflicting top-level content key holds "TOP" appends only the
nested value; a fragment whose message value is the string "x" falls back to
the top-level key. -/
theorem c10_content_lookup_precedence_witness :
    (processChunk "content" ⟨[], []⟩
        (.obj [("message", .obj [("content", .str "Hi")]), ("content", .str "TOP")])).map
      AccState.contentParts = .ok [.str "Hi"] ∧
    (processChunk "content" ⟨[], []⟩
        (.obj [("message", .str "x"), ("content", .str "TOP")])).map
      AccState.contentParts = .ok [.str "TOP"] := by
  constructor
  · have h := (c10_content_lookup_precedence "content" ⟨[], []⟩).1
      [("message", .obj [("content", .str "Hi")]), ("content", .str "TOP")]
      [("content", .str "Hi")] (.str "Hi") rfl rfl
    rw [h]
    rfl
  · have h := (c10_content_lookup_precedence "content" ⟨[], []⟩).2.1
      [("message", .str "x"), ("content", .str "TOP")] (.str "TOP") (by rfl) rfl
    rw [h]
    rfl

end OllamaMCP
